import Mathlib

/-!
Verification development for the credit-ledger core of the Nano-Bananary
backend: the account ledger (`accountModel.ts`), the payment workflow
(`paymentModel.ts`), the service consumption / refund workflow
(`serviceModel`, read from the repository sources), the user-creation
seeding (`userModel.ts`), and the route-level balance-check helpers.

Modelling conventions.  The persistence layer is, per the specification,
an external transactional relational store; each SQL table becomes a Lean
list of rows (INSERT is cons, UPDATE maps over the rows, point SELECT is
`List.find?`), and each model function's BEGIN/COMMIT/ROLLBACK bracket is
rendered by returning either the fully updated database (the commit) or
the database as it stood at entry (the rollback) — all-or-nothing, as the
spec's concurrency section requires of the store.  `crypto.randomUUID()`
and `new Date()` are external inputs, so generated ids and timestamps are
explicit parameters (timestamps in milliseconds since the epoch, matching
JavaScript `Date.getTime()`).  Monetary amounts are modelled as `Int`.
-/

inductive TxType where
  | deposit
  | withdrawal
  | reward
  | expiry
  deriving DecidableEq, Repr

inductive PaymentStatus where
  | pending
  | completed
  | failed
  | refunded
  deriving DecidableEq, Repr

inductive UsageStatus where
  | success
  | failed
  | refunded
  deriving DecidableEq, Repr

inductive PayMethod where
  | wechat
  | alipay
  | other
  deriving DecidableEq, Repr

/-- Row of `user_accounts` (types.ts `UserAccount`). -/
structure UserAccount where
  userId : String
  balance : Int
  lastUpdated : Nat
  deriving DecidableEq, Repr

/-- Row of `credit_transactions` (types.ts `CreditTransaction`). -/
structure CreditTransaction where
  id : String
  userId : String
  type : TxType
  amount : Int
  previousBalance : Int
  currentBalance : Int
  relatedOrder : Option String
  description : Option String
  createdAt : Nat
  deriving DecidableEq, Repr

/-- Row of `payments` (types.ts `Payment`). -/
structure Payment where
  id : String
  userId : String
  amount : Int
  credits : Int
  status : PaymentStatus
  method : PayMethod
  transactionId : Option String
  createdAt : Nat
  updatedAt : Nat
  deriving DecidableEq, Repr

/-- Row of `service_usages` (types.ts `ServiceUsage`). -/
structure ServiceUsage where
  id : String
  userId : String
  serviceKey : String
  creditsUsed : Int
  status : UsageStatus
  details : Option String
  createdAt : Nat
  deriving DecidableEq, Repr

/-- Row of `users` (types.ts `User`); the password hash and salt come from
`crypto` and are treated as opaque input strings. -/
structure User where
  id : String
  username : String
  email : String
  phone : Option String
  passwordHash : String
  salt : String
  isVerified : Bool
  verificationToken : Option String
  createdAt : Nat
  updatedAt : Nat
  deriving DecidableEq, Repr

/-- The SQLite database (`initDb` creates exactly these five tables). -/
structure DB where
  users : List User
  accounts : List UserAccount
  transactions : List CreditTransaction
  payments : List Payment
  usages : List ServiceUsage
  deriving DecidableEq, Repr

def emptyDB : DB :=
  { users := [], accounts := [], transactions := [], payments := [], usages := [] }

/-- `accountModel.getUserAccount`: `SELECT * FROM user_accounts WHERE userId = ?`. -/
def getUserAccount (db : DB) (userId : String) : Option UserAccount :=
  db.accounts.find? (fun a => a.userId == userId)

/-- `accountModel.getBalance`: balance of the account, `0` when absent. -/
def getBalance (db : DB) (userId : String) : Int :=
  match getUserAccount db userId with
  | none => 0
  | some a => a.balance

/-- `accountModel.checkBalance`: `account.balance >= requiredAmount`,
`false` when the account does not exist. -/
def checkBalance (db : DB) (userId : String) (requiredAmount : Int) : Bool :=
  match getUserAccount db userId with
  | none => false
  | some a => decide (requiredAmount ≤ a.balance)

/-- `accountModel.updateUserBalance`.  Reads the current balance, computes
`currentBalance = previousBalance + amount`; throws (hence rolls the
transaction back and returns `false`) when the account is missing or when
`type === 'withdrawal' && currentBalance < 0`; otherwise updates the
account row and inserts one `credit_transactions` row, committing both. -/
def updateUserBalance (db : DB) (transactionId : String) (now : Nat)
    (userId : String) (amount : Int) (type : TxType)
    (description : Option String) (relatedOrder : Option String) : Bool × DB :=
  match getUserAccount db userId with
  | none => (false, db)
  | some account =>
    let previousBalance := account.balance
    let currentBalance := previousBalance + amount
    if type = TxType.withdrawal ∧ currentBalance < 0 then
      (false, db)
    else
      (true,
        { db with
          accounts := db.accounts.map (fun a =>
            if a.userId == userId then
              { a with balance := currentBalance, lastUpdated := now }
            else a),
          transactions :=
            { id := transactionId, userId := userId, type := type,
              amount := amount, previousBalance := previousBalance,
              currentBalance := currentBalance, relatedOrder := relatedOrder,
              description := description, createdAt := now } :: db.transactions })

/-- `accountModel.depositCredits`. -/
def depositCredits (db : DB) (transactionId : String) (now : Nat)
    (userId : String) (amount : Int) (relatedOrder : Option String)
    (description : Option String) : Bool × DB :=
  updateUserBalance db transactionId now userId amount TxType.deposit description relatedOrder

/-- `accountModel.withdrawCredits` (also exported as `deductCredits`). -/
def withdrawCredits (db : DB) (transactionId : String) (now : Nat)
    (userId : String) (amount : Int) (relatedOrder : Option String)
    (description : Option String) : Bool × DB :=
  updateUserBalance db transactionId now userId (-amount) TxType.withdrawal description relatedOrder

def deductCredits : DB → String → Nat → String → Int → Option String → Option String → Bool × DB :=
  withdrawCredits

/-- `accountModel.rewardCredits`. -/
def rewardCredits (db : DB) (transactionId : String) (now : Nat)
    (userId : String) (amount : Int) (description : Option String) : Bool × DB :=
  updateUserBalance db transactionId now userId amount TxType.reward description none

/-- `userModel.createUser`: inserts the user row (verified immediately)
and seeds its `user_accounts` row with balance `15`; no
`credit_transactions` row is written for the seed. -/
def createUser (db : DB) (id salt passwordHash : String) (now : Nat)
    (username email : String) (phone : Option String) : User × DB :=
  let user : User :=
    { id := id, username := username, email := email, phone := phone,
      passwordHash := passwordHash, salt := salt, isVerified := true,
      verificationToken := none, createdAt := now, updatedAt := now }
  (user,
    { db with
      users := user :: db.users,
      accounts := { userId := id, balance := 15, lastUpdated := now } :: db.accounts })

/-- `paymentModel.createPayment`: inserts a `pending` payment with
`credits = amount * creditsRate`; the source defaults `creditsRate` to
`10` (1 currency unit = 10 credits). -/
def createPayment (db : DB) (id : String) (now : Nat) (userId : String)
    (amount : Int) (method : PayMethod) (creditsRate : Int) : Payment × DB :=
  let credits := amount * creditsRate
  let payment : Payment :=
    { id := id, userId := userId, amount := amount, credits := credits,
      status := PaymentStatus.pending, method := method, transactionId := none,
      createdAt := now, updatedAt := now }
  (payment, { db with payments := payment :: db.payments })

/-- `paymentModel.getPaymentById`. -/
def getPaymentById (db : DB) (id : String) : Option Payment :=
  db.payments.find? (fun p => p.id == id)

/-- `paymentModel.updatePaymentStatus`.  Throws (rollback, `false`) when
the payment is missing or its status is not `pending`; otherwise updates
the payment row and, when the new status is `completed`, calls
`depositCredits` for the payment's credits with `relatedOrder = paymentId`
(the source ignores `depositCredits`' boolean result), then commits. -/
def updatePaymentStatus (db : DB) (depositTxId : String) (now : Nat)
    (paymentId : String) (status : PaymentStatus)
    (transactionId : Option String) : Bool × DB :=
  match getPaymentById db paymentId with
  | none => (false, db)
  | some payment =>
    if payment.status ≠ PaymentStatus.pending then
      (false, db)
    else
      let db1 : DB :=
        { db with
          payments := db.payments.map (fun p =>
            if p.id == paymentId then
              { p with status := status, transactionId := transactionId,
                       updatedAt := now }
            else p) }
      if status = PaymentStatus.completed then
        (true, (depositCredits db1 depositTxId now payment.userId payment.credits
          (some paymentId)
          (some ("充值" ++ toString payment.credits ++ "积分"))).2)
      else
        (true, db1)

/-- `paymentModel.handlePaymentCallback`. -/
def handlePaymentCallback (db : DB) (depositTxId : String) (now : Nat)
    (paymentId : String) (transactionId : String) (success : Bool) : Bool × DB :=
  updatePaymentStatus db depositTxId now paymentId
    (if success then PaymentStatus.completed else PaymentStatus.failed)
    (some transactionId)

/-- `serviceModel.createServiceUsage`: inserts one `service_usages` row. -/
def createServiceUsage (db : DB) (id : String) (now : Nat)
    (userId serviceKey : String) (creditsUsed : Int) (status : UsageStatus)
    (details : Option String) : ServiceUsage × DB :=
  let usage : ServiceUsage :=
    { id := id, userId := userId, serviceKey := serviceKey,
      creditsUsed := creditsUsed, status := status, details := details,
      createdAt := now }
  (usage, { db with usages := usage :: db.usages })

/-- Result object of `serviceModel.consumeService`. -/
structure ConsumeResult where
  success : Bool
  message : Option String
  serviceUsage : Option ServiceUsage
  deriving DecidableEq, Repr

/-- `serviceModel.consumeService`: inside a transaction, checks the
balance, withdraws the credits and records a `success` usage; on any
failure the transaction is rolled back and a `failed` usage carrying
`details + " - Error: " + message` is recorded outside the transaction. -/
def consumeService (db : DB) (withdrawTxId usageRowId : String) (now : Nat)
    (userId serviceKey : String) (credits : Int)
    (details : Option String) : ConsumeResult × DB :=
  if checkBalance db userId credits = false then
    let r := createServiceUsage db usageRowId now userId serviceKey credits
      UsageStatus.failed
      (some (details.getD "" ++ " - Error: " ++ "Insufficient balance"))
    ({ success := false, message := some "Insufficient balance",
       serviceUsage := none }, r.2)
  else
    let w := withdrawCredits db withdrawTxId now userId credits none
      (some ("使用" ++ serviceKey ++ "服务"))
    if w.1 = false then
      let r := createServiceUsage db usageRowId now userId serviceKey credits
        UsageStatus.failed
        (some (details.getD "" ++ " - Error: " ++ "Failed to withdraw credits"))
      ({ success := false, message := some "Failed to withdraw credits",
         serviceUsage := none }, r.2)
    else
      let r := createServiceUsage w.2 usageRowId now userId serviceKey credits
        UsageStatus.success details
      ({ success := true, message := none, serviceUsage := some r.1 }, r.2)

/-- `serviceModel.servicePricing`: the static price table. -/
def servicePricing : List (String × Int) :=
  [("ai-image-edit", 5), ("ai-image-generate", 10), ("high-resolution-edit", 15),
   ("batch-processing", 20), ("remove-background", 3), ("enhance-image", 4),
   ("resize-image", 2)]

/-- Runtime value of a JavaScript expression `TABLE[key] || 0` on one of
the price objects: either a number, or a truthy member inherited from
`Object.prototype` (the object literals have the default prototype, so a
key such as `"toString"` yields the inherited function, which `|| 0`
keeps). -/
inductive JsNum where
  | num (n : Int)
  | protoProp (name : String)
  deriving DecidableEq, Repr

/-- The property names the price object literals inherit from
`Object.prototype` (all of them truthy values: methods, plus the
`__proto__` accessor yielding the prototype object). -/
def objectPrototypeProps : List String :=
  ["constructor", "hasOwnProperty", "isPrototypeOf", "propertyIsEnumerable",
   "toLocaleString", "toString", "valueOf", "__proto__", "__defineGetter__",
   "__defineSetter__", "__lookupGetter__", "__lookupSetter__"]

/-- JavaScript `TABLE[key] || 0` on a price object literal: an own entry
gives its (nonzero) number; an absent key falls back to the prototype
chain, where an `Object.prototype` member is truthy and survives `|| 0`;
only a genuinely absent key gives `undefined || 0 = 0`. -/
def jsLookupOrZero (table : List (String × Int)) (key : String) : JsNum :=
  match table.find? (fun p => p.fst == key) with
  | some p => JsNum.num p.snd
  | none =>
    if key ∈ objectPrototypeProps then JsNum.protoProp key
    else JsNum.num 0

/-- JavaScript `balance >= required` when `required` may be a non-number:
a number compares numerically; an inherited function/object converts to
`NaN`, and every `NaN` comparison is `false`. -/
def jsGe (balance : Int) (required : JsNum) : Bool :=
  match required with
  | JsNum.num n => decide (n ≤ balance)
  | JsNum.protoProp _ => false

/-- `accountModel.checkBalance` as reached with a dynamically typed
`requiredAmount` (the routes pass `TABLE[key] || 0` straight through, so
despite the `number` annotation the argument can be an inherited
prototype member): same body, `account.balance >= requiredAmount` with
JavaScript comparison semantics. -/
def checkBalanceJs (db : DB) (userId : String) (requiredAmount : JsNum) : Bool :=
  match getUserAccount db userId with
  | none => false
  | some a => jsGe a.balance requiredAmount

/-- `serviceModel.getServicePrice`: `servicePricing[serviceKey] || 0`,
prototype chain included. -/
def getServicePrice (serviceKey : String) : JsNum :=
  jsLookupOrZero servicePricing serviceKey

/-- `serviceModel.refundServiceConsumption`.  Throws (rollback, `false`)
when the usage is missing, its status is not `success`, or
`hoursDiff > 24` where `hoursDiff = (now - createdAt) / 3600000`;
otherwise runs `UPDATE user_accounts SET balance = balance + creditsUsed`
(a no-op when the account row is absent), marks the usage `refunded`, and
inserts a `credit_transactions` row whose `previousBalance` field is
literally `creditsUsed - creditsUsed` and whose `currentBalance` field is
`creditsUsed`, then commits. -/
def refundServiceConsumption (db : DB) (refundTxId : String) (now : Nat)
    (serviceUsageId : String) (reason : Option String) : Bool × DB :=
  match db.usages.find? (fun u => u.id == serviceUsageId) with
  | none => (false, db)
  | some serviceUsage =>
    if serviceUsage.status ≠ UsageStatus.success then
      (false, db)
    else if (now : Int) - (serviceUsage.createdAt : Int) > 24 * (1000 * 60 * 60) then
      (false, db)
    else
      (true,
        { db with
          accounts := db.accounts.map (fun a =>
            if a.userId == serviceUsage.userId then
              { a with balance := a.balance + serviceUsage.creditsUsed,
                       lastUpdated := now }
            else a),
          usages := db.usages.map (fun u =>
            if u.id == serviceUsageId then
              { u with status := UsageStatus.refunded }
            else u),
          transactions :=
            { id := refundTxId, userId := serviceUsage.userId,
              type := TxType.reward, amount := serviceUsage.creditsUsed,
              previousBalance := serviceUsage.creditsUsed - serviceUsage.creditsUsed,
              currentBalance := serviceUsage.creditsUsed,
              relatedOrder := some serviceUsageId,
              description := some ("服务退款: " ++ serviceUsage.serviceKey ++ " "
                ++ reason.getD ""),
              createdAt := now } :: db.transactions })

/-- Result object of the route-level `checkUserBalance` helpers (their
`requiredCredits` is whatever `SERVICE_PRICES[serviceName] || 0`
produced). -/
structure BalanceCheck where
  hasSufficientBalance : Bool
  requiredCredits : JsNum
  deriving DecidableEq, Repr

namespace GeminiServiceRoute

/-- `SERVICE_PRICES` of the route file that proxies the generation
collaborator. -/
def SERVICE_PRICES : List (String × Int) :=
  [("ai-image-edit", 3)]

/-- That route's `checkUserBalance`:
`SERVICE_PRICES[serviceName] || 0` (prototype chain included), then
`checkBalance(userId, requiredCredits)` with the value passed through
unchecked. -/
def checkUserBalance (db : DB) (userId serviceName : String) : BalanceCheck :=
  let requiredCredits := jsLookupOrZero SERVICE_PRICES serviceName
  { hasSufficientBalance := checkBalanceJs db userId requiredCredits,
    requiredCredits := requiredCredits }

end GeminiServiceRoute

namespace MockServiceRoute

/-- `SERVICE_PRICES` of the mock service route file. -/
def SERVICE_PRICES : List (String × Int) :=
  [("ai-image-edit", 5), ("ai-video-generate", 20)]

/-- That route's `checkUserBalance`:
`SERVICE_PRICES[serviceName] || 0` (prototype chain included), balance
defaulting to `0` when the account is absent, then `balance >= required`
with JavaScript comparison semantics. -/
def checkUserBalance (db : DB) (userId serviceName : String) : BalanceCheck :=
  let requiredCredits := jsLookupOrZero SERVICE_PRICES serviceName
  let balance :=
    match getUserAccount db userId with
    | none => 0
    | some a => a.balance
  { hasSufficientBalance := jsGe balance requiredCredits,
    requiredCredits := requiredCredits }

end MockServiceRoute

/-- Sum of the `amount` fields of a user's transaction rows. -/
def txSum (l : List CreditTransaction) (userId : String) : Int :=
  ((l.filter (fun t => t.userId == userId)).map (fun t => t.amount)).sum

/-- One mutating operation of the backend, as invoked by the routes:
user registration, a raw ledger delta (covering the deposit / withdraw /
reward wrappers), payment creation, the payment callback, service
consumption, a bare usage insertion, and the refund.  Generated ids are
existential parameters; `createUser` carries the freshness of the fresh
UUID (no existing account row and no prior transaction rows under it). -/
inductive Step : DB → DB → Prop where
  | newUser (db : DB) (id salt passwordHash : String) (now : Nat)
      (username email : String) (phone : Option String)
      (hacct : getUserAccount db id = none)
      (htx : ∀ t ∈ db.transactions, t.userId ≠ id) :
      Step db (createUser db id salt passwordHash now username email phone).2
  | balanceOp (db : DB) (txId : String) (now : Nat) (userId : String)
      (amount : Int) (type : TxType) (description relatedOrder : Option String) :
      Step db (updateUserBalance db txId now userId amount type description relatedOrder).2
  | newPayment (db : DB) (id : String) (now : Nat) (userId : String)
      (amount : Int) (method : PayMethod) (creditsRate : Int) :
      Step db (createPayment db id now userId amount method creditsRate).2
  | payStatus (db : DB) (depositTxId : String) (now : Nat) (paymentId : String)
      (status : PaymentStatus) (transactionId : Option String) :
      Step db (updatePaymentStatus db depositTxId now paymentId status transactionId).2
  | consumeOp (db : DB) (withdrawTxId usageRowId : String) (now : Nat)
      (userId serviceKey : String) (credits : Int) (details : Option String) :
      Step db (consumeService db withdrawTxId usageRowId now userId serviceKey credits details).2
  | usageOp (db : DB) (id : String) (now : Nat) (userId serviceKey : String)
      (creditsUsed : Int) (status : UsageStatus) (details : Option String) :
      Step db (createServiceUsage db id now userId serviceKey creditsUsed status details).2
  | refundOp (db : DB) (refundTxId : String) (now : Nat)
      (serviceUsageId : String) (reason : Option String) :
      Step db (refundServiceConsumption db refundTxId now serviceUsageId reason).2

/-- States reachable from the freshly initialised (empty) database. -/
def Reachable (db : DB) : Prop :=
  Relation.ReflTransGen Step emptyDB db

/-- The audit-log invariant of every account: balance is the seeded `15`
plus the sum of the user's transaction amounts. -/
def BalanceInv (db : DB) : Prop :=
  ∀ a ∈ db.accounts, a.balance = 15 + txSum db.transactions a.userId

/-- Arithmetic consistency of every audit row. -/
def TxRowInv (db : DB) : Prop :=
  ∀ t ∈ db.transactions, t.previousBalance + t.amount = t.currentBalance

theorem txSum_cons (t : CreditTransaction) (l : List CreditTransaction)
    (uid : String) :
    txSum (t :: l) uid = (if t.userId = uid then t.amount else 0) + txSum l uid := by
  by_cases h : t.userId = uid <;>
    simp [txSum, List.filter_cons, h]

theorem txSum_eq_zero (l : List CreditTransaction) (uid : String)
    (h : ∀ t ∈ l, t.userId ≠ uid) : txSum l uid = 0 := by
  induction l with
  | nil => simp [txSum]
  | cons t l ih =>
    rw [txSum_cons]
    rw [if_neg (h t (List.mem_cons_self t l))]
    rw [ih (fun x hx => h x (List.mem_cons_of_mem t hx))]
    simp

theorem getUserAccount_some_mem (db : DB) (uid : String) (a : UserAccount)
    (h : getUserAccount db uid = some a) : a ∈ db.accounts ∧ a.userId = uid := by
  unfold getUserAccount at h
  refine ⟨List.mem_of_find?_eq_some h, ?_⟩
  have := List.find?_some h
  simpa using this


theorem find?_map_keyUpdate {α : Type} (key : α → String) (k : String)
    (upd : α → α) (hkey : ∀ a, key (upd a) = key a) (l : List α) :
    (l.map (fun a => if key a == k then upd a else a)).find? (fun a => key a == k)
    = (l.find? (fun a => key a == k)).map upd := by
  induction l with
  | nil => rfl
  | cons a l ih =>
    by_cases h : key a = k
    · have h1 : (key a == k) = true := by simpa using h
      have h2 : (key (upd a) == k) = true := by rw [hkey]; exact h1
      simp only [List.map_cons]
      rw [if_pos h1]
      simp only [List.find?]
      rw [h1, h2]
      rfl
    · have h1 : (key a == k) = false := by simp [h]
      simp only [List.map_cons]
      rw [if_neg (by simp [h1])]
      simp only [List.find?]
      rw [h1]
      exact ih

theorem updateUserBalance_not_found (db : DB) (txId : String) (now : Nat)
    (uid : String) (amount : Int) (ty : TxType) (d r : Option String)
    (hfind : getUserAccount db uid = none) :
    updateUserBalance db txId now uid amount ty d r = (false, db) := by
  unfold updateUserBalance
  rw [hfind]

theorem updateUserBalance_insufficient (db : DB) (txId : String) (now : Nat)
    (uid : String) (amount : Int) (ty : TxType) (d r : Option String)
    (acct : UserAccount) (hfind : getUserAccount db uid = some acct)
    (hg : ty = TxType.withdrawal ∧ acct.balance + amount < 0) :
    updateUserBalance db txId now uid amount ty d r = (false, db) := by
  unfold updateUserBalance
  rw [hfind]
  dsimp only
  rw [if_pos hg]

theorem updateUserBalance_ok (db : DB) (txId : String) (now : Nat)
    (uid : String) (amount : Int) (ty : TxType) (d r : Option String)
    (acct : UserAccount) (hfind : getUserAccount db uid = some acct)
    (hg : ¬(ty = TxType.withdrawal ∧ acct.balance + amount < 0)) :
    updateUserBalance db txId now uid amount ty d r =
      (true,
        { db with
          accounts := db.accounts.map (fun a =>
            if a.userId == uid then
              { a with balance := acct.balance + amount, lastUpdated := now }
            else a),
          transactions :=
            { id := txId, userId := uid, type := ty, amount := amount,
              previousBalance := acct.balance,
              currentBalance := acct.balance + amount, relatedOrder := r,
              description := d, createdAt := now } :: db.transactions }) := by
  unfold updateUserBalance
  rw [hfind]
  dsimp only
  rw [if_neg hg]

theorem balanceInv_of_eq_tables (db db' : DB) (hacc : db'.accounts = db.accounts)
    (htx : db'.transactions = db.transactions) (h : BalanceInv db) : BalanceInv db' := by
  intro a ha
  rw [hacc] at ha
  rw [htx]
  exact h a ha

theorem balanceInv_updateUserBalance (db : DB) (txId : String) (now : Nat)
    (uid : String) (amount : Int) (ty : TxType) (d r : Option String)
    (h : BalanceInv db) :
    BalanceInv (updateUserBalance db txId now uid amount ty d r).2 := by
  cases hfind : getUserAccount db uid with
  | none =>
    rw [updateUserBalance_not_found db txId now uid amount ty d r hfind]
    exact h
  | some acct =>
    by_cases hg : ty = TxType.withdrawal ∧ acct.balance + amount < 0
    · rw [updateUserBalance_insufficient db txId now uid amount ty d r acct hfind hg]
      exact h
    · rw [updateUserBalance_ok db txId now uid amount ty d r acct hfind hg]
      obtain ⟨hmem, hkeyu⟩ := getUserAccount_some_mem db uid acct hfind
      have hacct : acct.balance = 15 + txSum db.transactions uid := by
        have hx := h acct hmem
        rwa [hkeyu] at hx
      intro a ha
      dsimp only at ha ⊢
      obtain ⟨b, hb, hba⟩ := List.mem_map.mp ha
      by_cases hbu : b.userId = uid
      · rw [if_pos (by simpa using hbu)] at hba
        subst hba
        dsimp only
        rw [txSum_cons, if_pos hbu.symm, hbu, hacct]
        ring
      · rw [if_neg (by simp [hbu])] at hba
        subst hba
        rw [txSum_cons, if_neg (fun hc => hbu hc.symm)]
        rw [h b hb]
        ring

theorem balanceInv_createUser (db : DB) (id salt passwordHash : String)
    (now : Nat) (username email : String) (phone : Option String)
    (htx : ∀ t ∈ db.transactions, t.userId ≠ id) (h : BalanceInv db) :
    BalanceInv (createUser db id salt passwordHash now username email phone).2 := by
  unfold createUser
  dsimp only
  intro a ha
  rcases List.mem_cons.mp ha with hnew | hold
  · subst hnew
    dsimp only
    rw [txSum_eq_zero db.transactions id htx]
    ring
  · exact h a hold

theorem balanceInv_updatePaymentStatus (db : DB) (depositTxId : String)
    (now : Nat) (paymentId : String) (status : PaymentStatus)
    (transactionId : Option String) (h : BalanceInv db) :
    BalanceInv (updatePaymentStatus db depositTxId now paymentId status transactionId).2 := by
  unfold updatePaymentStatus
  cases hfind : getPaymentById db paymentId with
  | none => exact h
  | some payment =>
    dsimp only
    by_cases hpend : payment.status ≠ PaymentStatus.pending
    · rw [if_pos hpend]
      exact h
    · rw [if_neg hpend]
      by_cases hc : status = PaymentStatus.completed
      · rw [if_pos hc]
        dsimp only
        unfold depositCredits
        apply balanceInv_updateUserBalance
        exact balanceInv_of_eq_tables db _ rfl rfl h
      · rw [if_neg hc]
        exact balanceInv_of_eq_tables db _ rfl rfl h

theorem balanceInv_consumeService (db : DB) (withdrawTxId usageRowId : String)
    (now : Nat) (userId serviceKey : String) (credits : Int)
    (details : Option String) (h : BalanceInv db) :
    BalanceInv (consumeService db withdrawTxId usageRowId now userId serviceKey credits details).2 := by
  unfold consumeService
  by_cases hcb : checkBalance db userId credits = false
  · rw [if_pos hcb]
    exact balanceInv_of_eq_tables db _ rfl rfl h
  · rw [if_neg hcb]
    dsimp only
    by_cases hw : (withdrawCredits db withdrawTxId now userId credits none
        (some ("使用" ++ serviceKey ++ "服务"))).1 = false
    · rw [if_pos hw]
      exact balanceInv_of_eq_tables db _ rfl rfl h
    · rw [if_neg hw]
      apply balanceInv_of_eq_tables
        (withdrawCredits db withdrawTxId now userId credits none
          (some ("使用" ++ serviceKey ++ "服务"))).2 _ rfl rfl
      unfold withdrawCredits
      exact balanceInv_updateUserBalance db withdrawTxId now userId (-credits)
        TxType.withdrawal (some ("使用" ++ serviceKey ++ "服务")) none h

theorem balanceInv_refund (db : DB) (refundTxId : String) (now : Nat)
    (serviceUsageId : String) (reason : Option String) (h : BalanceInv db) :
    BalanceInv (refundServiceConsumption db refundTxId now serviceUsageId reason).2 := by
  unfold refundServiceConsumption
  cases hfind : db.usages.find? (fun u => u.id == serviceUsageId) with
  | none => exact h
  | some u =>
    dsimp only
    by_cases h1 : u.status ≠ UsageStatus.success
    · rw [if_pos h1]
      exact h
    · rw [if_neg h1]
      by_cases h2 : (now : Int) - (u.createdAt : Int) > 24 * (1000 * 60 * 60)
      · rw [if_pos h2]
        exact h
      · rw [if_neg h2]
        intro a ha
        dsimp only at ha ⊢
        obtain ⟨b, hb, hba⟩ := List.mem_map.mp ha
        by_cases hbu : b.userId = u.userId
        · rw [if_pos (by simpa using hbu)] at hba
          subst hba
          dsimp only
          rw [txSum_cons, if_pos hbu.symm, hbu, h b hb, hbu]
          ring
        · rw [if_neg (by simp [hbu])] at hba
          subst hba
          rw [txSum_cons, if_neg (fun hc => hbu hc.symm)]
          rw [h b hb]
          ring

theorem txRowInv_of_eq (db db' : DB) (htx : db'.transactions = db.transactions)
    (h : TxRowInv db) : TxRowInv db' := by
  intro t ht
  rw [htx] at ht
  exact h t ht

theorem txRowInv_updateUserBalance (db : DB) (txId : String) (now : Nat)
    (uid : String) (amount : Int) (ty : TxType) (d r : Option String)
    (h : TxRowInv db) :
    TxRowInv (updateUserBalance db txId now uid amount ty d r).2 := by
  cases hfind : getUserAccount db uid with
  | none =>
    rw [updateUserBalance_not_found db txId now uid amount ty d r hfind]
    exact h
  | some acct =>
    by_cases hg : ty = TxType.withdrawal ∧ acct.balance + amount < 0
    · rw [updateUserBalance_insufficient db txId now uid amount ty d r acct hfind hg]
      exact h
    · rw [updateUserBalance_ok db txId now uid amount ty d r acct hfind hg]
      intro t ht
      dsimp only at ht
      rcases List.mem_cons.mp ht with hnew | hold
      · subst hnew
        dsimp only
      · exact h t hold

theorem txRowInv_updatePaymentStatus (db : DB) (depositTxId : String)
    (now : Nat) (paymentId : String) (status : PaymentStatus)
    (transactionId : Option String) (h : TxRowInv db) :
    TxRowInv (updatePaymentStatus db depositTxId now paymentId status transactionId).2 := by
  unfold updatePaymentStatus
  cases hfind : getPaymentById db paymentId with
  | none => exact h
  | some payment =>
    dsimp only
    by_cases hpend : payment.status ≠ PaymentStatus.pending
    · rw [if_pos hpend]
      exact h
    · rw [if_neg hpend]
      by_cases hc : status = PaymentStatus.completed
      · rw [if_pos hc]
        dsimp only
        unfold depositCredits
        apply txRowInv_updateUserBalance
        exact txRowInv_of_eq db _ rfl h
      · rw [if_neg hc]
        exact txRowInv_of_eq db _ rfl h

theorem txRowInv_consumeService (db : DB) (withdrawTxId usageRowId : String)
    (now : Nat) (userId serviceKey : String) (credits : Int)
    (details : Option String) (h : TxRowInv db) :
    TxRowInv (consumeService db withdrawTxId usageRowId now userId serviceKey credits details).2 := by
  unfold consumeService
  by_cases hcb : checkBalance db userId credits = false
  · rw [if_pos hcb]
    exact txRowInv_of_eq db _ rfl h
  · rw [if_neg hcb]
    dsimp only
    by_cases hw : (withdrawCredits db withdrawTxId now userId credits none
        (some ("使用" ++ serviceKey ++ "服务"))).1 = false
    · rw [if_pos hw]
      exact txRowInv_of_eq db _ rfl h
    · rw [if_neg hw]
      apply txRowInv_of_eq
        (withdrawCredits db withdrawTxId now userId credits none
          (some ("使用" ++ serviceKey ++ "服务"))).2 _ rfl
      unfold withdrawCredits
      exact txRowInv_updateUserBalance db withdrawTxId now userId (-credits)
        TxType.withdrawal (some ("使用" ++ serviceKey ++ "服务")) none h

theorem txRowInv_refund (db : DB) (refundTxId : String) (now : Nat)
    (serviceUsageId : String) (reason : Option String) (h : TxRowInv db) :
    TxRowInv (refundServiceConsumption db refundTxId now serviceUsageId reason).2 := by
  unfold refundServiceConsumption
  cases hfind : db.usages.find? (fun u => u.id == serviceUsageId) with
  | none => exact h
  | some u =>
    dsimp only
    by_cases h1 : u.status ≠ UsageStatus.success
    · rw [if_pos h1]
      exact h
    · rw [if_neg h1]
      by_cases h2 : (now : Int) - (u.createdAt : Int) > 24 * (1000 * 60 * 60)
      · rw [if_pos h2]
        exact h
      · rw [if_neg h2]
        intro t ht
        dsimp only at ht
        rcases List.mem_cons.mp ht with hnew | hold
        · subst hnew
          dsimp only
          ring
        · exact h t hold

theorem step_balanceInv {db db' : DB} (hstep : Step db db') (h : BalanceInv db) :
    BalanceInv db' := by
  cases hstep with
  | newUser id salt passwordHash now username email phone hacct htx =>
    exact balanceInv_createUser db id salt passwordHash now username email phone htx h
  | balanceOp txId now uid amount ty d r =>
    exact balanceInv_updateUserBalance db txId now uid amount ty d r h
  | newPayment id now uid amount m rate =>
    exact balanceInv_of_eq_tables db _ rfl rfl h
  | payStatus dep now pid st tid =>
    exact balanceInv_updatePaymentStatus db dep now pid st tid h
  | consumeOp w u now uid sk credits det =>
    exact balanceInv_consumeService db w u now uid sk credits det h
  | usageOp id now uid sk cu st det =>
    exact balanceInv_of_eq_tables db _ rfl rfl h
  | refundOp r now sid reason =>
    exact balanceInv_refund db r now sid reason h

theorem step_txRowInv {db db' : DB} (hstep : Step db db') (h : TxRowInv db) :
    TxRowInv db' := by
  cases hstep with
  | newUser id salt passwordHash now username email phone hacct htx =>
    exact txRowInv_of_eq db _ rfl h
  | balanceOp txId now uid amount ty d r =>
    exact txRowInv_updateUserBalance db txId now uid amount ty d r h
  | newPayment id now uid amount m rate =>
    exact txRowInv_of_eq db _ rfl h
  | payStatus dep now pid st tid =>
    exact txRowInv_updatePaymentStatus db dep now pid st tid h
  | consumeOp w u now uid sk credits det =>
    exact txRowInv_consumeService db w u now uid sk credits det h
  | usageOp id now uid sk cu st det =>
    exact txRowInv_of_eq db _ rfl h
  | refundOp r now sid reason =>
    exact txRowInv_refund db r now sid reason h

theorem updateUserBalance_frame (db : DB) (txId : String) (now : Nat)
    (uid : String) (amount : Int) (ty : TxType) (d r : Option String) :
    (updateUserBalance db txId now uid amount ty d r).2.payments = db.payments
    ∧ (updateUserBalance db txId now uid amount ty d r).2.usages = db.usages
    ∧ (updateUserBalance db txId now uid amount ty d r).2.users = db.users := by
  cases hfind : getUserAccount db uid with
  | none =>
    rw [updateUserBalance_not_found db txId now uid amount ty d r hfind]
    exact ⟨rfl, rfl, rfl⟩
  | some acct =>
    by_cases hg : ty = TxType.withdrawal ∧ acct.balance + amount < 0
    · rw [updateUserBalance_insufficient db txId now uid amount ty d r acct hfind hg]
      exact ⟨rfl, rfl, rfl⟩
    · rw [updateUserBalance_ok db txId now uid amount ty d r acct hfind hg]
      exact ⟨rfl, rfl, rfl⟩

theorem updateUserBalance_ok_result (db : DB) (txId : String) (now : Nat)
    (uid : String) (amount : Int) (ty : TxType) (d r : Option String)
    (acct : UserAccount) (hacct : getUserAccount db uid = some acct)
    (hg : ¬(ty = TxType.withdrawal ∧ acct.balance + amount < 0)) :
    (updateUserBalance db txId now uid amount ty d r).1 = true
    ∧ getUserAccount (updateUserBalance db txId now uid amount ty d r).2 uid
        = some { acct with balance := acct.balance + amount, lastUpdated := now }
    ∧ (updateUserBalance db txId now uid amount ty d r).2.transactions
        = { id := txId, userId := uid, type := ty, amount := amount,
            previousBalance := acct.balance,
            currentBalance := acct.balance + amount, relatedOrder := r,
            description := d, createdAt := now } :: db.transactions := by
  rw [updateUserBalance_ok db txId now uid amount ty d r acct hacct hg]
  refine ⟨rfl, ?_, rfl⟩
  unfold getUserAccount
  dsimp only
  rw [find?_map_keyUpdate (fun a => a.userId) uid
    (fun a => { a with balance := acct.balance + amount, lastUpdated := now })
    (fun a => rfl) db.accounts]
  unfold getUserAccount at hacct
  rw [hacct]
  rfl

theorem updatePaymentStatus_not_found (db : DB) (depositTxId : String)
    (now : Nat) (paymentId : String) (status : PaymentStatus)
    (transactionId : Option String)
    (hfind : getPaymentById db paymentId = none) :
    updatePaymentStatus db depositTxId now paymentId status transactionId = (false, db) := by
  unfold updatePaymentStatus
  rw [hfind]

theorem updatePaymentStatus_not_pending (db : DB) (depositTxId : String)
    (now : Nat) (paymentId : String) (status : PaymentStatus)
    (transactionId : Option String) (p : Payment)
    (hfind : getPaymentById db paymentId = some p)
    (hp : p.status ≠ PaymentStatus.pending) :
    updatePaymentStatus db depositTxId now paymentId status transactionId = (false, db) := by
  unfold updatePaymentStatus
  rw [hfind]
  dsimp only
  rw [if_pos hp]

theorem updatePaymentStatus_completed (db : DB) (depositTxId : String)
    (now : Nat) (paymentId : String) (transactionId : Option String)
    (p : Payment) (hfind : getPaymentById db paymentId = some p)
    (hp : p.status = PaymentStatus.pending) :
    updatePaymentStatus db depositTxId now paymentId PaymentStatus.completed transactionId =
      (true,
        (depositCredits
          { db with
            payments := db.payments.map (fun q =>
              if q.id == paymentId then
                { q with status := PaymentStatus.completed,
                         transactionId := transactionId, updatedAt := now }
              else q) }
          depositTxId now p.userId p.credits (some paymentId)
          (some ("充值" ++ toString p.credits ++ "积分"))).2) := by
  unfold updatePaymentStatus
  rw [hfind]
  dsimp only
  rw [if_neg (by simp [hp]), if_pos rfl]

theorem getPaymentById_congr (db db' : DB) (pid : String)
    (h : db'.payments = db.payments) : getPaymentById db' pid = getPaymentById db pid := by
  unfold getPaymentById
  rw [h]

/-- Number of transaction rows whose `relatedOrder` references `pid`. -/
def relatedTxCount (db : DB) (pid : String) : Nat :=
  (db.transactions.filter (fun t => t.relatedOrder == some pid)).length

/-- A one-user database: a single fresh registration on the empty store
(account seeded with balance 15, no transactions yet). -/
def dbSeed : DB :=
  (createUser emptyDB "u1" "salt" "hash" 0 "alice" "alice@example.com" none).2

theorem reachable_dbSeed : Reachable dbSeed := by
  refine Relation.ReflTransGen.tail Relation.ReflTransGen.refl ?_
  exact Step.newUser emptyDB "u1" "salt" "hash" 0 "alice" "alice@example.com" none
    (by decide) (by intro t ht; simp [emptyDB] at ht)

/-- C1: for `updateUserBalance` on an existing account: a withdrawal whose
`previousBalance + amount` is negative returns failure and leaves the
whole database (balance and `credit_transactions` log) untouched;
otherwise the call returns success, sets the balance to
`previousBalance + amount` and appends exactly one audit row — and both
writes land in one returned state, all-or-nothing.  Consequently a
successful withdrawal never leaves the balance negative. -/
theorem c1_updateUserBalance_guard (db : DB) (txId : String) (now : Nat)
    (uid : String) (amount : Int) (ty : TxType) (d r : Option String)
    (acct : UserAccount) (hacct : getUserAccount db uid = some acct) :
    (ty = TxType.withdrawal ∧ acct.balance + amount < 0 →
      updateUserBalance db txId now uid amount ty d r = (false, db))
    ∧ (¬(ty = TxType.withdrawal ∧ acct.balance + amount < 0) →
      (updateUserBalance db txId now uid amount ty d r).1 = true
      ∧ getUserAccount (updateUserBalance db txId now uid amount ty d r).2 uid
          = some { acct with balance := acct.balance + amount, lastUpdated := now }
      ∧ (updateUserBalance db txId now uid amount ty d r).2.transactions
          = { id := txId, userId := uid, type := ty, amount := amount,
              previousBalance := acct.balance,
              currentBalance := acct.balance + amount, relatedOrder := r,
              description := d, createdAt := now } :: db.transactions)
    ∧ (ty = TxType.withdrawal → (updateUserBalance db txId now uid amount ty d r).1 = true →
        0 ≤ acct.balance + amount) := by
  refine ⟨?_, ?_, ?_⟩
  · intro hg
    exact updateUserBalance_insufficient db txId now uid amount ty d r acct hacct hg
  · intro hg
    exact updateUserBalance_ok_result db txId now uid amount ty d r acct hacct hg
  · intro hty htrue
    by_contra hneg
    rw [updateUserBalance_insufficient db txId now uid amount ty d r acct hacct
      ⟨hty, by omega⟩] at htrue
    simp at htrue

theorem c1_witness :
    getUserAccount dbSeed "u1" = some { userId := "u1", balance := 15, lastUpdated := 0 }
    ∧ (TxType.withdrawal = TxType.withdrawal ∧ (15 : Int) + (-20) < 0 →
        updateUserBalance dbSeed "t1" 1 "u1" (-20) TxType.withdrawal none none
          = (false, dbSeed)) := by
  refine ⟨by decide, ?_⟩
  exact (c1_updateUserBalance_guard dbSeed "t1" 1 "u1" (-20) TxType.withdrawal none none
    { userId := "u1", balance := 15, lastUpdated := 0 } (by decide)).1

/-- C9: the non-negativity guard fires only for `type = withdrawal`; for
`deposit`, `reward` and `expiry` the call succeeds even when
`previousBalance + amount < 0`, committing the negative balance and the
audit row. -/
theorem c9_guard_only_for_withdrawal (db : DB) (txId : String) (now : Nat)
    (uid : String) (amount : Int) (ty : TxType) (d r : Option String)
    (acct : UserAccount) (hacct : getUserAccount db uid = some acct)
    (hty : ty = TxType.deposit ∨ ty = TxType.reward ∨ ty = TxType.expiry)
    (_hneg : acct.balance + amount < 0) :
    (updateUserBalance db txId now uid amount ty d r).1 = true
    ∧ getUserAccount (updateUserBalance db txId now uid amount ty d r).2 uid
        = some { acct with balance := acct.balance + amount, lastUpdated := now }
    ∧ (updateUserBalance db txId now uid amount ty d r).2.transactions
        = { id := txId, userId := uid, type := ty, amount := amount,
            previousBalance := acct.balance,
            currentBalance := acct.balance + amount, relatedOrder := r,
            description := d, createdAt := now } :: db.transactions := by
  have hg : ¬(ty = TxType.withdrawal ∧ acct.balance + amount < 0) := by
    rcases hty with h | h | h <;> simp [h]
  exact updateUserBalance_ok_result db txId now uid amount ty d r acct hacct hg

theorem c9_witness :
    getUserAccount dbSeed "u1" = some { userId := "u1", balance := 15, lastUpdated := 0 }
    ∧ (15 : Int) + (-20) < 0
    ∧ (updateUserBalance dbSeed "t1" 1 "u1" (-20) TxType.deposit none none).1 = true
    ∧ getBalance (updateUserBalance dbSeed "t1" 1 "u1" (-20) TxType.deposit none none).2 "u1"
        = -5 := by
  refine ⟨by decide, by decide, ?_, by decide⟩
  exact (c9_guard_only_for_withdrawal dbSeed "t1" 1 "u1" (-20) TxType.deposit none none
    { userId := "u1", balance := 15, lastUpdated := 0 } (by decide) (Or.inl rfl)
    (by decide)).1

/-- The spec's literal invariant for C2: balance equals the bare sum of
the user's transaction amounts (no seed). -/
def BalanceEqTxSum (db : DB) : Prop :=
  ∀ a ∈ db.accounts, a.balance = txSum db.transactions a.userId

/-- C2 (counterexample): directly after user creation — a reachable state —
the account's balance is 15 while its transaction log is empty, so balance
does not equal the sum of the logged amounts. -/
theorem c2_counterexample : Reachable dbSeed ∧ ¬ BalanceEqTxSum dbSeed := by
  refine ⟨reachable_dbSeed, ?_⟩
  intro hinv
  have hmem : ({ userId := "u1", balance := 15, lastUpdated := 0 } : UserAccount)
      ∈ dbSeed.accounts := by
    simp [dbSeed, createUser, emptyDB]
  have h15 := hinv _ hmem
  simp [txSum, dbSeed, createUser, emptyDB] at h15

/-- C2 (amended): at every reachable state, each account's balance equals
the seeded starting balance 15 plus the sum of the `amount` fields of all
`CreditTransaction` rows recorded for that user. -/
theorem c2_balance_reconstructable (db : DB) (h : Reachable db) : BalanceInv db := by
  induction h with
  | refl =>
    intro a ha
    simp [emptyDB] at ha
  | tail hab hbc ih =>
    exact step_balanceInv hbc ih

theorem c2_witness : Reachable dbSeed ∧ BalanceInv dbSeed :=
  ⟨reachable_dbSeed, c2_balance_reconstructable dbSeed reachable_dbSeed⟩

/-- C3: at every reachable state, every `credit_transactions` row ever
written (by `updateUserBalance` or the refund path) satisfies
`previousBalance + amount = currentBalance`. -/
theorem c3_tx_rows_arith_consistent (db : DB) (h : Reachable db) : TxRowInv db := by
  induction h with
  | refl =>
    intro t ht
    simp [emptyDB] at ht
  | tail hab hbc ih =>
    exact step_txRowInv hbc ih

theorem c3_witness : Reachable dbSeed ∧ TxRowInv dbSeed :=
  ⟨reachable_dbSeed, c3_tx_rows_arith_consistent dbSeed reachable_dbSeed⟩

theorem updateUserBalance_tx_cases (db : DB) (txId : String) (now : Nat)
    (uid : String) (amount : Int) (ty : TxType) (d r : Option String) :
    (updateUserBalance db txId now uid amount ty d r).2.transactions = db.transactions
    ∨ ∃ row : CreditTransaction,
        (updateUserBalance db txId now uid amount ty d r).2.transactions
          = row :: db.transactions := by
  cases hfind : getUserAccount db uid with
  | none =>
    rw [updateUserBalance_not_found db txId now uid amount ty d r hfind]
    exact Or.inl rfl
  | some acct =>
    by_cases hg : ty = TxType.withdrawal ∧ acct.balance + amount < 0
    · rw [updateUserBalance_insufficient db txId now uid amount ty d r acct hfind hg]
      exact Or.inl rfl
    · rw [updateUserBalance_ok db txId now uid amount ty d r acct hfind hg]
      exact Or.inr ⟨_, rfl⟩

theorem filter_length_cons_le (row : CreditTransaction)
    (l : List CreditTransaction) (pid : String) :
    ((row :: l).filter (fun t => t.relatedOrder == some pid)).length
      ≤ (l.filter (fun t => t.relatedOrder == some pid)).length + 1 := by
  by_cases h : (row.relatedOrder == some pid) = true
  · have hf : List.filter (fun t => t.relatedOrder == some pid) (row :: l)
        = row :: List.filter (fun t => t.relatedOrder == some pid) l :=
      List.filter_cons_of_pos h
    rw [hf]
    simp
  · have hf : List.filter (fun t => t.relatedOrder == some pid) (row :: l)
        = List.filter (fun t => t.relatedOrder == some pid) l :=
      List.filter_cons_of_neg (by simpa using h)
    rw [hf]
    exact Nat.le_succ _

theorem getPaymentById_after_statusUpdate (db : DB) (pid : String)
    (st : PaymentStatus) (tid : Option String) (now : Nat) (p : Payment)
    (hfind : getPaymentById db pid = some p) :
    getPaymentById
      { db with payments := db.payments.map (fun q =>
          if q.id == pid then
            { q with status := st, transactionId := tid, updatedAt := now }
          else q) } pid
      = some { p with status := st, transactionId := tid, updatedAt := now } := by
  unfold getPaymentById
  dsimp only
  rw [find?_map_keyUpdate (fun q => q.id) pid
    (fun q => { q with status := st, transactionId := tid, updatedAt := now })
    (fun q => rfl) db.payments]
  unfold getPaymentById at hfind
  rw [hfind]
  rfl

/-- C4: replaying the success callback for the same payment deposits at
most once: the first call succeeds, the second call returns failure and
leaves the state untouched (status is no longer `pending`), and in
general a payment whose status is not `pending` is never mutated. -/
theorem c4_payment_replay_idempotent (db : DB) (dep1 dep2 : String)
    (now1 now2 : Nat) (pid tid1 tid2 : String) (p : Payment)
    (hfind : getPaymentById db pid = some p)
    (hpend : p.status = PaymentStatus.pending) :
    (handlePaymentCallback db dep1 now1 pid tid1 true).1 = true
    ∧ handlePaymentCallback (handlePaymentCallback db dep1 now1 pid tid1 true).2
        dep2 now2 pid tid2 true
        = (false, (handlePaymentCallback db dep1 now1 pid tid1 true).2)
    ∧ relatedTxCount (handlePaymentCallback db dep1 now1 pid tid1 true).2 pid
        ≤ relatedTxCount db pid + 1
    ∧ (∀ (db' : DB) (q : Payment) (dep : String) (now : Nat)
        (st : PaymentStatus) (tid : Option String),
        getPaymentById db' pid = some q → q.status ≠ PaymentStatus.pending →
        updatePaymentStatus db' dep now pid st tid = (false, db')) := by
  have hcall1 : handlePaymentCallback db dep1 now1 pid tid1 true
      = updatePaymentStatus db dep1 now1 pid PaymentStatus.completed (some tid1) := rfl
  have e1 := updatePaymentStatus_completed db dep1 now1 pid (some tid1) p hfind hpend
  have hframe := updateUserBalance_frame
    { db with payments := db.payments.map (fun q =>
        if q.id == pid then
          { q with status := PaymentStatus.completed,
                   transactionId := some tid1, updatedAt := now1 }
        else q) }
    dep1 now1 p.userId p.credits TxType.deposit
    (some ("充值" ++ toString p.credits ++ "积分")) (some pid)
  have hfind2 : getPaymentById (handlePaymentCallback db dep1 now1 pid tid1 true).2 pid
      = some { p with status := PaymentStatus.completed,
                      transactionId := some tid1, updatedAt := now1 } := by
    rw [hcall1, e1]
    dsimp only
    unfold depositCredits
    rw [getPaymentById_congr _ _ pid hframe.1]
    exact getPaymentById_after_statusUpdate db pid PaymentStatus.completed
      (some tid1) now1 p hfind
  refine ⟨?_, ?_, ?_, ?_⟩
  · rw [hcall1, e1]
  · exact updatePaymentStatus_not_pending _ dep2 now2 pid PaymentStatus.completed
      (some tid2) _ hfind2 (by simp)
  · rw [hcall1, e1]
    dsimp only
    unfold depositCredits
    rcases updateUserBalance_tx_cases
      { db with payments := db.payments.map (fun q =>
          if q.id == pid then
            { q with status := PaymentStatus.completed,
                     transactionId := some tid1, updatedAt := now1 }
          else q) }
      dep1 now1 p.userId p.credits TxType.deposit
      (some ("充值" ++ toString p.credits ++ "积分")) (some pid) with htx | htx
    · unfold relatedTxCount
      rw [htx]
      exact Nat.le_succ _
    · obtain ⟨row, hrow⟩ := htx
      unfold relatedTxCount
      rw [hrow]
      exact filter_length_cons_le row db.transactions pid
  · intro db' q dep now st tid hq hqs
    exact updatePaymentStatus_not_pending db' dep now pid st tid q hq hqs

/-- A one-user database holding one pending payment of 10 currency units
(100 credits at the fixed rate). -/
def dbPay : DB := (createPayment dbSeed "pay1" 2 "u1" 10 PayMethod.wechat 10).2

theorem c4_witness :
    getPaymentById dbPay "pay1"
      = some { id := "pay1", userId := "u1", amount := 10, credits := 100,
               status := PaymentStatus.pending, method := PayMethod.wechat,
               transactionId := none, createdAt := 2, updatedAt := 2 }
    ∧ (handlePaymentCallback dbPay "d1" 3 "pay1" "txn1" true).1 = true
    ∧ handlePaymentCallback (handlePaymentCallback dbPay "d1" 3 "pay1" "txn1" true).2
        "d2" 4 "pay1" "txn2" true
        = (false, (handlePaymentCallback dbPay "d1" 3 "pay1" "txn1" true).2) := by
  have h := c4_payment_replay_idempotent dbPay "d1" "d2" 3 4 "pay1" "txn1" "txn2"
    { id := "pay1", userId := "u1", amount := 10, credits := 100,
      status := PaymentStatus.pending, method := PayMethod.wechat,
      transactionId := none, createdAt := 2, updatedAt := 2 }
    (by decide) (by decide)
  exact ⟨by decide, h.1, h.2.1⟩

/-- C7: for a freshly created user (balance seeded at 15),
`consumeService` for `ai-image-edit` at 5 credits succeeds, leaves the
balance at 10, records exactly one `success` usage row, and appends
exactly one `withdrawal` transaction with amount `-5`. -/
theorem c7_consume_scenario :
    getBalance dbSeed "u1" = 15
    ∧ (consumeService dbSeed "t1" "su1" 1 "u1" "ai-image-edit" 5 none).1.success = true
    ∧ getBalance (consumeService dbSeed "t1" "su1" 1 "u1" "ai-image-edit" 5 none).2 "u1" = 10
    ∧ (consumeService dbSeed "t1" "su1" 1 "u1" "ai-image-edit" 5 none).2.usages
        = [{ id := "su1", userId := "u1", serviceKey := "ai-image-edit",
             creditsUsed := 5, status := UsageStatus.success, details := none,
             createdAt := 1 }]
    ∧ (consumeService dbSeed "t1" "su1" 1 "u1" "ai-image-edit" 5 none).2.transactions
        = [{ id := "t1", userId := "u1", type := TxType.withdrawal, amount := -5,
             previousBalance := 15, currentBalance := 10, relatedOrder := none,
             description := some "使用ai-image-edit服务", createdAt := 1 }] := by
  refine ⟨by decide, by decide, by decide, by decide, by decide⟩

/-- C8: `createPayment(u1, 10, wechat)` yields credits `100` (amount times
the fixed rate 10) in status `pending`; the success callback then returns
success, marks the payment `completed`, and deposits 100 credits — one
`deposit` transaction with `relatedOrder` the payment id, balance up by
100 (15 to 115). -/
theorem c8_payment_scenario :
    (createPayment dbSeed "pay1" 2 "u1" 10 PayMethod.wechat 10).1.credits = 100
    ∧ (createPayment dbSeed "pay1" 2 "u1" 10 PayMethod.wechat 10).1.status
        = PaymentStatus.pending
    ∧ (handlePaymentCallback dbPay "d1" 3 "pay1" "txn1" true).1 = true
    ∧ getPaymentById (handlePaymentCallback dbPay "d1" 3 "pay1" "txn1" true).2 "pay1"
        = some { id := "pay1", userId := "u1", amount := 10, credits := 100,
                 status := PaymentStatus.completed, method := PayMethod.wechat,
                 transactionId := some "txn1", createdAt := 2, updatedAt := 3 }
    ∧ getBalance (handlePaymentCallback dbPay "d1" 3 "pay1" "txn1" true).2 "u1" = 115
    ∧ (handlePaymentCallback dbPay "d1" 3 "pay1" "txn1" true).2.transactions
        = [{ id := "d1", userId := "u1", type := TxType.deposit, amount := 100,
             previousBalance := 15, currentBalance := 115,
             relatedOrder := some "pay1", description := some "充值100积分",
             createdAt := 3 }] := by
  refine ⟨by decide, by decide, by decide, by decide, by decide, by decide⟩

/-- C6: `consumeService` with required credits strictly above the balance
returns failure with message "Insufficient balance", leaves the account
table and the transaction log untouched, and records exactly one `failed`
`ServiceUsage` row carrying the reason in its details. -/
theorem c6_consume_insufficient (db : DB) (withdrawTxId usageRowId : String)
    (now : Nat) (uid serviceKey : String) (credits : Int)
    (details : Option String) (acct : UserAccount)
    (hacct : getUserAccount db uid = some acct)
    (hlt : acct.balance < credits) :
    (consumeService db withdrawTxId usageRowId now uid serviceKey credits details).1
        = { success := false, message := some "Insufficient balance",
            serviceUsage := none }
    ∧ (consumeService db withdrawTxId usageRowId now uid serviceKey credits details).2.accounts
        = db.accounts
    ∧ (consumeService db withdrawTxId usageRowId now uid serviceKey credits details).2.transactions
        = db.transactions
    ∧ (consumeService db withdrawTxId usageRowId now uid serviceKey credits details).2.usages
        = { id := usageRowId, userId := uid, serviceKey := serviceKey,
            creditsUsed := credits, status := UsageStatus.failed,
            details := some (details.getD "" ++ " - Error: "
              ++ "Insufficient balance"),
            createdAt := now } :: db.usages := by
  have hcb : checkBalance db uid credits = false := by
    unfold checkBalance
    rw [hacct]
    simp only [decide_eq_false_iff_not]
    omega
  unfold consumeService
  rw [if_pos hcb]
  unfold createServiceUsage
  exact ⟨rfl, rfl, rfl, rfl⟩

theorem c6_witness :
    getUserAccount dbSeed "u1" = some { userId := "u1", balance := 15, lastUpdated := 0 }
    ∧ (15 : Int) < 100
    ∧ (consumeService dbSeed "t1" "su1" 1 "u1" "ai-image-edit" 100 none).1
        = { success := false, message := some "Insufficient balance",
            serviceUsage := none } := by
  refine ⟨by decide, by decide, ?_⟩
  exact (c6_consume_insufficient dbSeed "t1" "su1" 1 "u1" "ai-image-edit" 100 none
    { userId := "u1", balance := 15, lastUpdated := 0 } (by decide) (by decide)).1

/-- C5: `refundServiceConsumption` succeeds exactly when the referenced
usage exists with status `success` and `now` is at most 24 hours past its
creation; on success it credits `creditsUsed` back to the user's account,
marks the usage `refunded` and appends one compensating audit row; on
failure it performs no mutation. -/
theorem c5_refund_spec (db : DB) (refundTxId : String) (now : Nat)
    (usageId : String) (reason : Option String) :
    ((refundServiceConsumption db refundTxId now usageId reason).1 = true ↔
      ∃ u : ServiceUsage,
        db.usages.find? (fun x => x.id == usageId) = some u
        ∧ u.status = UsageStatus.success
        ∧ (now : Int) - (u.createdAt : Int) ≤ 24 * (1000 * 60 * 60))
    ∧ ((refundServiceConsumption db refundTxId now usageId reason).1 = false →
        (refundServiceConsumption db refundTxId now usageId reason).2 = db)
    ∧ (∀ (u : ServiceUsage) (acct : UserAccount),
        db.usages.find? (fun x => x.id == usageId) = some u →
        u.status = UsageStatus.success →
        (now : Int) - (u.createdAt : Int) ≤ 24 * (1000 * 60 * 60) →
        getUserAccount db u.userId = some acct →
        getUserAccount (refundServiceConsumption db refundTxId now usageId reason).2 u.userId
            = some { acct with balance := acct.balance + u.creditsUsed, lastUpdated := now }
        ∧ (refundServiceConsumption db refundTxId now usageId reason).2.usages.find?
            (fun x => x.id == usageId)
            = some { u with status := UsageStatus.refunded }
        ∧ (refundServiceConsumption db refundTxId now usageId reason).2.transactions
            = { id := refundTxId, userId := u.userId, type := TxType.reward,
                amount := u.creditsUsed,
                previousBalance := u.creditsUsed - u.creditsUsed,
                currentBalance := u.creditsUsed, relatedOrder := some usageId,
                description := some ("服务退款: " ++ u.serviceKey ++ " "
                  ++ reason.getD ""),
                createdAt := now } :: db.transactions) := by
  unfold refundServiceConsumption
  cases hfind : db.usages.find? (fun x => x.id == usageId) with
  | none =>
    refine ⟨?_, fun _ => rfl, ?_⟩
    · constructor
      · intro habs
        exact absurd habs Bool.false_ne_true
      · rintro ⟨u, hu, _⟩
        exact Option.noConfusion hu
    · intro u acct hu
      exact absurd hu (by simp)
  | some u =>
    dsimp only
    by_cases h1 : u.status ≠ UsageStatus.success
    · rw [if_pos h1]
      refine ⟨?_, fun _ => rfl, ?_⟩
      · constructor
        · intro habs
          exact absurd habs Bool.false_ne_true
        · rintro ⟨u', hu', hs', _⟩
          obtain rfl := Option.some.inj hu'
          exact absurd hs' h1
      · intro u' acct hu' hs' ht' hacct
        obtain rfl := Option.some.inj hu'
        exact absurd hs' h1
    · rw [if_neg h1]
      by_cases h2 : (now : Int) - (u.createdAt : Int) > 24 * (1000 * 60 * 60)
      · rw [if_pos h2]
        refine ⟨?_, fun _ => rfl, ?_⟩
        · constructor
          · intro habs
            exact absurd habs Bool.false_ne_true
          · rintro ⟨u', hu', hs', ht'⟩
            obtain rfl := Option.some.inj hu'
            omega
        · intro u' acct hu' hs' ht' hacct
          obtain rfl := Option.some.inj hu'
          omega
      · rw [if_neg h2]
        refine ⟨?_, ?_, ?_⟩
        · exact ⟨fun _ => ⟨u, rfl, not_ne_iff.mp h1, by omega⟩, fun _ => rfl⟩
        · intro habs
          exact absurd habs (by simp)
        · intro u' acct hu' hs' ht' hacct
          obtain rfl := Option.some.inj hu'
          refine ⟨?_, ?_, rfl⟩
          · unfold getUserAccount
            dsimp only
            rw [find?_map_keyUpdate (fun a => a.userId) u.userId
              (fun a => { a with balance := a.balance + u.creditsUsed, lastUpdated := now })
              (fun a => rfl) db.accounts]
            unfold getUserAccount at hacct
            rw [hacct]
            rfl
          · show (db.usages.map (fun x =>
                if x.id == usageId then { x with status := UsageStatus.refunded } else x)).find?
                (fun x => x.id == usageId) = some { u with status := UsageStatus.refunded }
            rw [find?_map_keyUpdate (fun x => x.id) usageId
              (fun x => { x with status := UsageStatus.refunded })
              (fun x => rfl) db.usages]
            rw [hfind]
            rfl

/-- The one-user database after the successful 5-credit consumption of
C7's scenario: balance 10 with one `success` usage row. -/
def dbC5 : DB := (consumeService dbSeed "t1" "su1" 1 "u1" "ai-image-edit" 5 none).2

theorem c5_witness :
    dbC5.usages.find? (fun x => x.id == "su1")
      = some { id := "su1", userId := "u1", serviceKey := "ai-image-edit",
               creditsUsed := 5, status := UsageStatus.success, details := none,
               createdAt := 1 }
    ∧ (refundServiceConsumption dbC5 "r1" 1000 "su1" none).1 = true := by
  refine ⟨by decide, ?_⟩
  exact (c5_refund_spec dbC5 "r1" 1000 "su1" none).1.mpr
    ⟨{ id := "su1", userId := "u1", serviceKey := "ai-image-edit",
       creditsUsed := 5, status := UsageStatus.success, details := none,
       createdAt := 1 }, by decide, rfl, by decide⟩

/-- C10 (amended): for a serviceKey that is neither an own entry of the
price tables nor an `Object.prototype` property, `getServicePrice`
returns 0 and both route-level `checkUserBalance` helpers default the
required credits to 0, so the balance check for such an unknown service
passes for every existing account with non-negative balance.  Excluded
by the counterexample: a key inherited from the prototype (such as
`"toString"`) makes `TABLE[key] || 0` yield the truthy inherited member,
failing the check for every balance; and a negative balance (reachable
via a non-withdrawal delta) fails the check even at price 0. -/
theorem c10_unknown_service_defaults (db : DB) (uid serviceKey : String)
    (acct : UserAccount) (hacct : getUserAccount db uid = some acct)
    (hnn : 0 ≤ acct.balance)
    (hproto : serviceKey ∉ objectPrototypeProps)
    (h1 : servicePricing.find? (fun p => p.fst == serviceKey) = none)
    (h2 : GeminiServiceRoute.SERVICE_PRICES.find? (fun p => p.fst == serviceKey) = none)
    (h3 : MockServiceRoute.SERVICE_PRICES.find? (fun p => p.fst == serviceKey) = none) :
    getServicePrice serviceKey = JsNum.num 0
    ∧ GeminiServiceRoute.checkUserBalance db uid serviceKey
        = { hasSufficientBalance := true, requiredCredits := JsNum.num 0 }
    ∧ MockServiceRoute.checkUserBalance db uid serviceKey
        = { hasSufficientBalance := true, requiredCredits := JsNum.num 0 } := by
  have hz1 : jsLookupOrZero servicePricing serviceKey = JsNum.num 0 := by
    unfold jsLookupOrZero
    rw [h1, if_neg hproto]
  have hz2 : jsLookupOrZero GeminiServiceRoute.SERVICE_PRICES serviceKey = JsNum.num 0 := by
    unfold jsLookupOrZero
    rw [h2, if_neg hproto]
  have hz3 : jsLookupOrZero MockServiceRoute.SERVICE_PRICES serviceKey = JsNum.num 0 := by
    unfold jsLookupOrZero
    rw [h3, if_neg hproto]
  refine ⟨hz1, ?_, ?_⟩
  · unfold GeminiServiceRoute.checkUserBalance
    rw [hz2]
    unfold checkBalanceJs
    rw [hacct]
    unfold jsGe
    dsimp only
    simp [hnn]
  · unfold MockServiceRoute.checkUserBalance
    rw [hz3, hacct]
    unfold jsGe
    dsimp only
    simp [hnn]

/-- A reachable state with a negative balance: the fresh user's account
after a deposit-typed delta of -20 (the guard only covers withdrawals). -/
def dbNeg : DB := (updateUserBalance dbSeed "t1" 1 "u1" (-20) TxType.deposit none none).2

theorem reachable_dbNeg : Reachable dbNeg :=
  Relation.ReflTransGen.tail reachable_dbSeed
    (Step.balanceOp dbSeed "t1" 1 "u1" (-20) TxType.deposit none none)

/-- C10 (counterexample): the claim's universally quantified check fails
twice.  In the reachable state `dbNeg` the account `u1` exists (balance
-5) and the price of an unknown service is 0, yet the route-level check
fails; and for the absent-but-inherited key `"toString"` the lookup
yields the truthy `Object.prototype` member instead of 0, so both
route-level checks fail even on the healthy seed account (balance 15). -/
theorem c10_counterexample :
    (Reachable dbNeg
      ∧ getUserAccount dbNeg "u1" = some { userId := "u1", balance := -5, lastUpdated := 1 }
      ∧ getServicePrice "no-such-service" = JsNum.num 0
      ∧ (GeminiServiceRoute.checkUserBalance dbNeg "u1" "no-such-service").hasSufficientBalance
          = false)
    ∧ (getServicePrice "toString" = JsNum.protoProp "toString"
      ∧ getUserAccount dbSeed "u1" = some { userId := "u1", balance := 15, lastUpdated := 0 }
      ∧ (GeminiServiceRoute.checkUserBalance dbSeed "u1" "toString").hasSufficientBalance
          = false
      ∧ (MockServiceRoute.checkUserBalance dbSeed "u1" "toString").hasSufficientBalance
          = false) := by
  exact ⟨⟨reachable_dbNeg, by decide, by decide, by decide⟩,
         ⟨by decide, by decide, by decide, by decide⟩⟩

theorem c10_witness :
    getUserAccount dbSeed "u1" = some { userId := "u1", balance := 15, lastUpdated := 0 }
    ∧ (0 : Int) ≤ 15
    ∧ "no-such-service" ∉ objectPrototypeProps
    ∧ GeminiServiceRoute.checkUserBalance dbSeed "u1" "no-such-service"
        = { hasSufficientBalance := true, requiredCredits := JsNum.num 0 } := by
  refine ⟨by decide, by decide, by decide, ?_⟩
  exact (c10_unknown_service_defaults dbSeed "u1" "no-such-service"
    { userId := "u1", balance := 15, lastUpdated := 0 } (by decide) (by decide)
    (by decide) (by decide) (by decide) (by decide)).2.1

/-- On an actual number, the dynamically typed reading of
`accountModel.checkBalance` coincides with the `Int`-typed one. -/
theorem checkBalanceJs_num (db : DB) (uid : String) (n : Int) :
    checkBalanceJs db uid (JsNum.num n) = checkBalance db uid n := by
  unfold checkBalanceJs checkBalance jsGe
  cases getUserAccount db uid with
  | none => rfl
  | some a => rfl
